import Mathlib

/-!
Verification of the LinkShades local gateway (src/server.js).

This file gives a shallow embedding of the device transport & session core:
the translation functions (`percentToCommand`, `commandToPercent`,
`positionToPercent`), the WebSocket frame codec (`parseWebSocketFrame`),
the upgrade handshake (SHA-1 + base64 accept token), and the registry state
transitions performed by the `socket.on('data')` status-ingest handler, the
`socket.on('close')` teardown handler, and the HTTP command endpoints.

Modelling conventions:
  * JavaScript numbers are modelled as exact integers/rationals (`ℤ`, `ℕ`);
    `Math.round(x)` for an exact rational `num/den` with `den > 0` is
    `⌊num/den + 1/2⌋`, embedded as `jsRound`.
  * Byte buffers are `List ℕ` (each entry a byte value).
  * `Buffer.readBigUInt64BE` followed by `Number(...)` is modelled as the
    exact big-endian value (the float precision loss above 2^53 is not
    representable for any physically possible buffer).
  * The two mutable maps (`connectedShades`, `shadesDB.shades`) are modelled
    as functions `String → Option _`; `new Date()` timestamps inside a single
    synchronous handler are modelled as one `now : ℕ` parameter.
  * `fs` persistence is modelled by a `saved` flag (the snapshot written is
    always the in-memory store), and MQTT publications by an output list.
-/

/-! ## Translation functions (src/server.js lines 163-178) -/

/-- Embedding of `Math.round(num/den)` for an exact rational with positive
denominator: `⌊num/den + 1/2⌋ = ⌊(2*num + den)/(2*den)⌋` (floor division). -/
def jsRound (num den : ℤ) : ℤ := Int.fdiv (2 * num + den) (2 * den)

/-- `percentToCommand(percent)`: `Math.round(SHADE_MIN + percent * range / 100)`
with `range = SHADE_MAX - SHADE_MIN`, parameterized by the calibration pair. -/
def percentToCommand (mn mx p : ℤ) : ℤ := jsRound (100 * mn + p * (mx - mn)) 100

/-- `commandToPercent(command)`: `Math.round((command - SHADE_MIN) * 100 / range)`. -/
def commandToPercent (mn mx c : ℤ) : ℤ := jsRound ((c - mn) * 100) (mx - mn)

/-- `positionToPercent(position)`: `Math.round(position / 10)`. -/
def positionToPercent (pos : ℤ) : ℤ := jsRound pos 10

/-! ## Frame codec (src/server.js lines 212-249) -/

/-- Result of `parseWebSocketFrame`: opcode, (unmasked) payload and the number
of bytes consumed from the buffer (`totalLength`). -/
structure WSFrame where
  opcode : ℕ
  payload : List ℕ
  totalLength : ℕ
deriving DecidableEq

/-- `buffer.readUInt16BE(off)`. -/
def readUInt16BE (b : List ℕ) (off : ℕ) : ℕ := b.getD off 0 * 256 + b.getD (off + 1) 0

/-- `Number(buffer.readBigUInt64BE(off))`, modelled exactly. -/
def readUInt64BE (b : List ℕ) (off : ℕ) : ℕ :=
  b.getD off 0 * 72057594037927936 + b.getD (off + 1) 0 * 281474976710656 +
  b.getD (off + 2) 0 * 1099511627776 + b.getD (off + 3) 0 * 4294967296 +
  b.getD (off + 4) 0 * 16777216 + b.getD (off + 5) 0 * 65536 +
  b.getD (off + 6) 0 * 256 + b.getD (off + 7) 0

/-- The unmasking loop `payload[i] ^= maskKey[i % 4]`. -/
def applyMask (key payload : List ℕ) : List ℕ :=
  (List.range payload.length).map fun i => payload.getD i 0 ^^^ key.getD (i % 4) 0

/-- Tail of `parseWebSocketFrame` after the length field has been decoded:
`maskBit` is bit 7 of the second byte, `payloadLength` the declared length and
`off` the offset just past the length field. -/
def finishParse (buffer : List ℕ) (opcode maskBit payloadLength off : ℕ) : Option WSFrame :=
  if maskBit = 1 then
    if buffer.length < off + 4 then none
    else if buffer.length < off + 4 + payloadLength then none
    else
      some ⟨opcode,
        applyMask ((buffer.drop off).take 4) ((buffer.drop (off + 4)).take payloadLength),
        off + 4 + payloadLength⟩
  else
    if buffer.length < off + payloadLength then none
    else some ⟨opcode, (buffer.drop off).take payloadLength, off + payloadLength⟩

/-- Embedding of `parseWebSocketFrame(buffer)`. Returns `none` where the
source returns `null` ("insufficient data"). -/
def parseWebSocketFrame (buffer : List ℕ) : Option WSFrame :=
  if buffer.length < 2 then none
  else
    let firstByte := buffer.getD 0 0
    let secondByte := buffer.getD 1 0
    let opcode := firstByte % 16
    let maskBit := secondByte / 128 % 2
    let len7 := secondByte % 128
    if len7 = 126 then
      if buffer.length < 4 then none
      else finishParse buffer opcode maskBit (readUInt16BE buffer 2) 4
    else if len7 = 127 then
      if buffer.length < 10 then none
      else finishParse buffer opcode maskBit (readUInt64BE buffer 2) 10
    else finishParse buffer opcode maskBit len7 2

/-! Derived framing-rule quantities, used to state completeness of a buffer:
the length code (low 7 bits of byte 1), the size of the header including any
extended-length field, the declared payload length, and the total byte count
a complete frame requires. -/

def lenCode (b : List ℕ) : ℕ := b.getD 1 0 % 128

def maskBitOf (b : List ℕ) : ℕ := b.getD 1 0 / 128 % 2

def headerLen (b : List ℕ) : ℕ :=
  if lenCode b = 126 then 4 else if lenCode b = 127 then 10 else 2

def declaredLen (b : List ℕ) : ℕ :=
  if lenCode b = 126 then readUInt16BE b 2
  else if lenCode b = 127 then readUInt64BE b 2
  else lenCode b

/-- Number of bytes a complete frame starting at this buffer requires:
header (with extended length field), mask key if the mask bit is set, and the
declared payload length. -/
def requiredLen (b : List ℕ) : ℕ :=
  headerLen b + (if maskBitOf b = 1 then 4 else 0) + declaredLen b

/-! Well-formed frame construction, used to state the decode theorem. -/

/-- The three payload-length encodings of the framing scheme. -/
inductive LenEnc
  | direct
  | ext16
  | ext64
deriving DecidableEq

/-- Value of the 7-bit length field for each encoding. -/
def lenField : LenEnc → ℕ → ℕ
  | .direct, len => len
  | .ext16, _ => 126
  | .ext64, _ => 127

/-- Big-endian 16-bit byte pair. -/
def be16 (n : ℕ) : List ℕ := [n / 256 % 256, n % 256]

/-- Big-endian 64-bit byte sequence. -/
def be64 (n : ℕ) : List ℕ :=
  [n / 72057594037927936 % 256, n / 281474976710656 % 256, n / 1099511627776 % 256,
   n / 4294967296 % 256, n / 16777216 % 256, n / 65536 % 256, n / 256 % 256, n % 256]

/-- Extended-length bytes for each encoding. -/
def extBytes : LenEnc → ℕ → List ℕ
  | .direct, _ => []
  | .ext16, len => be16 len
  | .ext64, len => be64 len

/-- Size of the frame header (length field included) for each encoding. -/
def headerSize : LenEnc → ℕ
  | .direct => 2
  | .ext16 => 4
  | .ext64 => 10

/-- The declared length is representable by the chosen encoding. -/
def lenOK : LenEnc → ℕ → Prop
  | .direct, len => len ≤ 125
  | .ext16, len => len < 65536
  | .ext64, len => len < 18446744073709551616

/-- A complete well-formed frame: first byte `b0` (only its low nibble, the
opcode, is inspected by decode), a length field for `enc`, the mask bit and
4-byte mask key when `masked`, and the on-wire payload bytes `wire`. -/
def mkFrame (b0 : ℕ) (enc : LenEnc) (masked : Bool) (key wire : List ℕ) : List ℕ :=
  b0 :: ((if masked then 128 else 0) + lenField enc wire.length) ::
    (extBytes enc wire.length ++ (if masked then key else []) ++ wire)

/-! ## Basic codec lemmas -/

theorem applyMask_length (key payload : List ℕ) :
    (applyMask key payload).length = payload.length := by
  simp [applyMask]

theorem applyMask_getD (key payload : List ℕ) (i : ℕ) (h : i < payload.length) :
    (applyMask key payload).getD i 0 = payload.getD i 0 ^^^ key.getD (i % 4) 0 := by
  simp only [applyMask]
  rw [List.getD_eq_getElem?_getD, List.getElem?_map]
  simp [List.getElem?_range, h]

/-- XOR-unmasking with the same key twice gives back the original bytes. -/
theorem applyMask_applyMask (key payload : List ℕ) :
    applyMask key (applyMask key payload) = payload := by
  apply List.ext_getElem
  · simp [applyMask_length]
  · intro i h1 h2
    have hlen : i < payload.length := by simpa [applyMask_length] using h2
    have e1 : (applyMask key (applyMask key payload)).getD i 0
        = (applyMask key payload).getD i 0 ^^^ key.getD (i % 4) 0 := by
      apply applyMask_getD
      simpa [applyMask_length] using hlen
    have e2 : (applyMask key payload).getD i 0 = payload.getD i 0 ^^^ key.getD (i % 4) 0 :=
      applyMask_getD key payload i hlen
    have e3 : (applyMask key (applyMask key payload)).getD i 0 = payload.getD i 0 := by
      rw [e1, e2, Nat.xor_assoc, Nat.xor_self, Nat.xor_zero]
    have g1 : (applyMask key (applyMask key payload)).getD i 0
        = (applyMask key (applyMask key payload))[i] := by
      rw [List.getD_eq_getElem?_getD, List.getElem?_eq_getElem h1]
      rfl
    have g2 : payload.getD i 0 = payload[i] := by
      rw [List.getD_eq_getElem?_getD, List.getElem?_eq_getElem hlen]
      rfl
    rw [← g1, ← g2, e3]

/-! ## Upgrade handshake (src/server.js lines 416-437)

The accept token is `base64(SHA-1(key + WS_GUID))`, computed by
`crypto.createHash('sha1')`. SHA-1 and base64 are embedded concretely below.
32-bit words are naturals kept below 2^32; the bitwise operations are written
arithmetically (digit-wise over the 32 binary digits) so every definition is
executable by plain `Nat` arithmetic. -/

/-- Binary digit `i` of `x`. -/
def bdig (x i : ℕ) : ℕ := x / 2 ^ i % 2

/-- Combine two 32-bit words digit by digit with `f`. -/
def mix32 (f : ℕ → ℕ → ℕ) (a b : ℕ) : ℕ :=
  (List.range 32).foldl (fun acc i => acc + 2 ^ i * f (bdig a i) (bdig b i)) 0

def xor32 (a b : ℕ) : ℕ := mix32 (fun x y => (x + y) % 2) a b

def and32 (a b : ℕ) : ℕ := mix32 (fun x y => x * y) a b

def or32 (a b : ℕ) : ℕ := mix32 (fun x y => x + y - x * y) a b

/-- Ones complement within 32 bits (valid for `a < 2^32`). -/
def not32 (a : ℕ) : ℕ := 4294967295 - a

/-- Left rotation of a 32-bit word by `n` places (`0 < n < 32`, `x < 2^32`). -/
def rotl32 (n x : ℕ) : ℕ := x * 2 ^ n % 4294967296 + x / 2 ^ (32 - n)

/-- SHA-1 round function. -/
def sha1f (i b c d : ℕ) : ℕ :=
  if i < 20 then or32 (and32 b c) (and32 (not32 b) d)
  else if i < 40 then xor32 (xor32 b c) d
  else if i < 60 then or32 (or32 (and32 b c) (and32 b d)) (and32 c d)
  else xor32 (xor32 b c) d

/-- SHA-1 round constants. -/
def sha1k (i : ℕ) : ℕ :=
  if i < 20 then 0x5A827999
  else if i < 40 then 0x6ED9EBA1
  else if i < 60 then 0x8F1BBCDC
  else 0xCA62C1D6

/-- The sixteen 32-bit big-endian words of one 64-byte block. -/
def blockWords (block : List ℕ) : List ℕ :=
  (List.range 16).map fun i =>
    block.getD (4 * i) 0 * 16777216 + block.getD (4 * i + 1) 0 * 65536 +
    block.getD (4 * i + 2) 0 * 256 + block.getD (4 * i + 3) 0

/-- Message-schedule expansion from 16 to 80 words. -/
def sha1Expand (w16 : List ℕ) : List ℕ :=
  (List.range 64).foldl
    (fun w _ =>
      w ++ [rotl32 1 (xor32 (xor32 (w.getD (w.length - 3) 0) (w.getD (w.length - 8) 0))
        (xor32 (w.getD (w.length - 14) 0) (w.getD (w.length - 16) 0)))])
    w16

/-- Compression of one 64-byte block into the running hash state. -/
def sha1Block (h : ℕ × ℕ × ℕ × ℕ × ℕ) (block : List ℕ) : ℕ × ℕ × ℕ × ℕ × ℕ :=
  let w := sha1Expand (blockWords block)
  let s := (List.range 80).foldl
    (fun (s : ℕ × ℕ × ℕ × ℕ × ℕ) i =>
      let t := (rotl32 5 s.1 + sha1f i s.2.1 s.2.2.1 s.2.2.2.1 + s.2.2.2.2 +
        sha1k i + w.getD i 0) % 4294967296
      (t, s.1, rotl32 30 s.2.1, s.2.2.1, s.2.2.2.1)) h
  ((h.1 + s.1) % 4294967296, (h.2.1 + s.2.1) % 4294967296,
   (h.2.2.1 + s.2.2.1) % 4294967296, (h.2.2.2.1 + s.2.2.2.1) % 4294967296,
   (h.2.2.2.2 + s.2.2.2.2) % 4294967296)

/-- Big-endian 32-bit byte sequence. -/
def be32 (n : ℕ) : List ℕ := [n / 16777216 % 256, n / 65536 % 256, n / 256 % 256, n % 256]

/-- SHA-1 padding: `0x80`, zeros to 56 mod 64, then the 64-bit bit length. -/
def sha1Pad (m : List ℕ) : List ℕ :=
  m ++ 128 :: List.replicate ((64 - (m.length + 9) % 64) % 64) 0 ++ be64 (8 * m.length)

/-- SHA-1 digest (20 bytes) of a byte sequence. -/
def sha1 (m : List ℕ) : List ℕ :=
  let p := sha1Pad m
  let h := (List.range (p.length / 64)).foldl
    (fun h i => sha1Block h ((p.drop (64 * i)).take 64))
    (0x67452301, 0xEFCDAB89, 0x98BADCFE, 0x10325476, 0xC3D2E1F0)
  be32 h.1 ++ be32 h.2.1 ++ be32 h.2.2.1 ++ be32 h.2.2.2.1 ++ be32 h.2.2.2.2

/-- The standard base64 alphabet. -/
def b64alphabet : String := "ABCDEFGHIJKLMNOPQRSTUVWXYZabcdefghijklmnopqrstuvwxyz0123456789+/"

def b64char (n : ℕ) : Char := b64alphabet.toList.getD n 'A'

/-- Base64 encoding of a byte sequence, with `=` padding. -/
def base64 (bs : List ℕ) : String :=
  String.mk <| (List.range ((bs.length + 2) / 3)).foldl
    (fun acc i =>
      let b0 := bs.getD (3 * i) 0
      let b1 := bs.getD (3 * i + 1) 0
      let b2 := bs.getD (3 * i + 2) 0
      let rem := bs.length - 3 * i
      acc ++ [b64char (b0 / 4), b64char (b0 % 4 * 16 + b1 / 16)] ++
        (if rem = 1 then ['=', '=']
         else [b64char (b1 % 16 * 4 + b2 / 64)] ++
           if rem = 2 then ['='] else [b64char (b2 % 64)])) []

/-- The fixed protocol GUID appended to the client key. -/
def WS_GUID : String := "258EAFA5-E914-47DA-95CA-C5AB0DC85B11"

/-- Bytes of an ASCII string. -/
def strBytes (s : String) : List ℕ := s.toList.map Char.toNat

/-- The accept token: `base64(SHA-1(key + WS_GUID))`. -/
def wsAccept (key : String) : String := base64 (sha1 (strBytes (key ++ WS_GUID)))

/-- Outcome of the `server.on('upgrade')` handler: whether the socket was
destroyed, and the handshake response lines written (none if nothing sent). -/
structure UpgradeOut where
  destroyed : Bool
  responseLines : Option (List String)

/-- Embedding of the upgrade handler. `key`/`protocol` are the request header
values (`none` when absent); the empty string is falsy in the source guards. -/
def handleUpgrade (key protocol : Option String) : UpgradeOut :=
  match key with
  | none => ⟨true, none⟩
  | some k =>
    if k = "" then ⟨true, none⟩
    else
      let acceptKey := wsAccept k
      let headers :=
        ["HTTP/1.1 101 Switching Protocols", "Upgrade: websocket",
         "Connection: Upgrade", "Sec-WebSocket-Accept: " ++ acceptKey] ++
        (match protocol with
         | some p => if p = "" then [] else ["Sec-WebSocket-Protocol: " ++ p]
         | none => [])
      ⟨false, some headers⟩

set_option maxRecDepth 10000

/-- Sanity vector from RFC 6455 section 1.3, validating the concrete SHA-1 and
base64 embeddings end to end. -/
theorem wsAccept_rfc6455_vector :
    wsAccept "dGhlIHNhbXBsZSBub25jZQ==" = "s3pPLMBiTxaQ9kYGzzhZRbK+xOo=" := by
  decide

/-! ## Registry state and session handlers (src/server.js lines 183-209, 440-514)

`shadesDB.shades` and `connectedShades` are the two shared maps; a live
session is represented by its numeric identifier. The spec names the derived
percentage field `currentPercent`; the source property is `currentPosition`. -/

/-- A persisted device record (one entry of `shadesDB.shades`). -/
structure Shade where
  chipID : String
  name : String
  firstSeen : ℕ
  lastSeen : ℕ
  online : Bool
  model : Option String
  firmware : Option ℤ
  rawPosition : Option ℤ
  currentPosition : Option ℤ
deriving DecidableEq

/-- The shared mutable state: the persisted record store and the live-session
map (`connectedShades`), both keyed by the stringified chip identifier. -/
structure ServerState where
  shades : String → Option Shade
  connected : String → Option ℕ

/-- State at process start with no persisted data file. -/
def emptyState : ServerState := ⟨fun _ => none, fun _ => none⟩

/-- Embedding of `loadData()`: the parsed persisted store becomes
`shadesDB.shades`; `connectedShades` starts empty. -/
def loadState (db : String → Option Shade) : ServerState := ⟨db, fun _ => none⟩

/-- A parsed JSON status message. `chipID = none` models an absent field;
`some 0` is falsy in the `if (data.chipID)` guard, like absence. -/
structure StatusMsg where
  chipID : Option ℕ
  model : Option String
  version : Option ℤ
  position : Option ℤ

/-- Result of one text/binary message dispatch: the new shared state, the new
value of the session-local `shadeChipID` variable, whether `saveData()` ran,
the `publishShadeState` notifications emitted, and whether the handler closed
the socket. -/
structure HandleOut where
  state : ServerState
  bound : Option String
  saved : Bool
  published : List (String × ℤ × Bool)
  closed : Bool

/-- The truthy-`chipID` path of the `socket.on('data')` handler: bind the
session in `connectedShades` (last-writer-wins), create the record on first
contact, update it, persist, and publish. `now` is the handler's timestamp. -/
def ingestStatus (st : ServerState) (sid : ℕ) (n : ℕ) (msg : StatusMsg) (now : ℕ) :
    HandleOut :=
  let cid := toString n
  let connected2 := fun c => if c = cid then some sid else st.connected c
  let base :=
    match st.shades cid with
    | some sh => sh
    | none => ⟨cid, "LinkShade " ++ cid, now, 0, false, none, none, none, none⟩
  let sh2 : Shade :=
    { base with
      lastSeen := now
      online := true
      model := msg.model
      firmware := msg.version
      rawPosition := msg.position
      currentPosition := msg.position.map positionToPercent }
  let shades2 := fun c => if c = cid then some sh2 else st.shades c
  ⟨⟨shades2, connected2⟩, some cid, true, [(cid, msg.position.getD 0, true)], false⟩

/-- Embedding of the JSON branch of `socket.on('data')` for one decoded
text/binary message: the `if (data.chipID)` guard drops falsy identities
(absent field or `0`) without any effect. `bound` is the session-local
`shadeChipID` before the message. -/
def handleStatus (st : ServerState) (sid : ℕ) (bound : Option String)
    (msg : StatusMsg) (now : ℕ) : HandleOut :=
  match msg.chipID with
  | none => ⟨st, bound, false, [], false⟩
  | some n =>
    if n = 0 then ⟨st, bound, false, [], false⟩
    else ingestStatus st sid n msg now

/-- Embedding of the `socket.on('close')` teardown handler. Note the source
deletes `connectedShades[shadeChipID]` unconditionally: it never checks that
the map still points at the closing socket. -/
def handleClose (st : ServerState) (bound : Option String) : HandleOut :=
  match bound with
  | none => ⟨st, bound, false, [], true⟩
  | some cid =>
    let connected2 := fun c => if c = cid then none else st.connected c
    match st.shades cid with
    | some sh =>
      ⟨⟨fun c => if c = cid then some { sh with online := false } else st.shades c,
        connected2⟩, bound, true, [(cid, 0, false)], true⟩
    | none => ⟨⟨st.shades, connected2⟩, bound, false, [(cid, 0, false)], true⟩

/-! ## Gateway control API (src/server.js lines 325-377) -/

/-- An outbound command message `{chipID, command}` as passed to
`sendToShade`. -/
structure CommandMsg where
  chipID : ℤ
  command : ℤ
deriving DecidableEq

/-- Result of a command endpoint: the response `status` field and the
messages written to live sessions (session id paired with the payload). -/
structure ApiResult where
  status : String
  sent : List (ℕ × CommandMsg)
deriving DecidableEq

/-- `parseInt(chipID)` for the decimal identifier captured from the URL; the
route pattern guarantees a nonempty digit string. -/
def strToInt (s : String) : ℤ :=
  ((s.toList.foldl (fun acc c => acc * 10 + (c.toNat - 48)) 0 : ℕ) : ℤ)

/-- Embedding of `POST /api/shades/chipID/position`: translate the percentage
and send to the bound session, or report `offline`. The shared state is
returned unchanged — the handler performs no registry or store write. -/
def apiPosition (st : ServerState) (cid : String) (position mn mx : ℤ) :
    ApiResult × ServerState :=
  let command := percentToCommand mn mx position
  match st.connected cid with
  | some sid => (⟨"sent", [(sid, ⟨strToInt cid, command⟩)]⟩, st)
  | none => (⟨"offline", []⟩, st)

/-- Embedding of `POST /api/shades/chipID/command` (raw command). -/
def apiCommand (st : ServerState) (cid : String) (command : ℤ) :
    ApiResult × ServerState :=
  match st.connected cid with
  | some sid => (⟨"sent", [(sid, ⟨strToInt cid, command⟩)]⟩, st)
  | none => (⟨"offline", []⟩, st)

/-! ## Reachability and the online invariant -/

/-- The claimed invariant: a record's stored `online` flag is true exactly
when the live-session map holds a session for that identity. -/
def onlineInv (st : ServerState) : Prop :=
  ∀ cid sh, st.shades cid = some sh → (sh.online = true ↔ (st.connected cid).isSome = true)

/-- States reachable by the in-process handlers from an empty startup. -/
inductive Reachable : ServerState → Prop
  | init : Reachable emptyState
  | status (st : ServerState) (sid : ℕ) (bound : Option String) (msg : StatusMsg)
      (now : ℕ) : Reachable st → Reachable (handleStatus st sid bound msg now).state
  | close (st : ServerState) (bound : Option String) :
      Reachable st → Reachable (handleClose st bound).state
  | position (st : ServerState) (cid : String) (p mn mx : ℤ) :
      Reachable st → Reachable (apiPosition st cid p mn mx).2
  | command (st : ServerState) (cid : String) (c : ℤ) :
      Reachable st → Reachable (apiCommand st cid c).2

/-! ## Claim C2 — percent/command round trip -/

/-- Claim C2 as stated is false at the default calibration `(73, 100)`:
`percentToCommand 2 = 74` and `commandToPercent 74 = 4`, so the round trip of
`p = 2` differs from `p` by 2, although `0 ≤ 2 ≤ 100` and `100 > 73`. -/
theorem C2_counterexample :
    (0 : ℤ) ≤ 2 ∧ (2 : ℤ) ≤ 100 ∧ (73 : ℤ) < 100 ∧
    commandToPercent 73 100 (percentToCommand 73 100 2) = 4 ∧
    ¬ |commandToPercent 73 100 (percentToCommand 73 100 2) - 2| ≤ 1 := by
  decide

/-- Claim C2, amended: for every integer `p` in `[0,100]` and calibration
`(min, max)` with `max - min ≥ 34`, the round trip
`commandToPercent (percentToCommand p)` differs from `p` by at most 1.
(For every range `max - min ≤ 33` some `p` exceeds the tolerance.) -/
theorem C2_roundtrip_within_one (mn mx p : ℤ) (hp0 : 0 ≤ p) (hp1 : p ≤ 100)
    (hr : 34 ≤ mx - mn) :
    |commandToPercent mn mx (percentToCommand mn mx p) - p| ≤ 1 := by
  clear hp0 hp1
  set r := mx - mn with hrdef
  have hrpos : (0:ℤ) < r := by omega
  have hq : percentToCommand mn mx p = mn + (2 * (p * r) + 100) / 200 := by
    unfold percentToCommand jsRound
    rw [Int.fdiv_eq_ediv _ (by norm_num : (0:ℤ) ≤ 2 * 100)]
    have h1 : 2 * (100 * mn + p * r) + 100 = (2 * (p * r) + 100) + mn * 200 := by ring
    have h2 : (2 : ℤ) * 100 = 200 := by norm_num
    rw [h1, h2, Int.add_mul_ediv_right _ _ (by norm_num : (200:ℤ) ≠ 0)]
    ring
  set q := (2 * (p * r) + 100) / 200 with hqdef
  have hR : commandToPercent mn mx (mn + q) = (200 * q + r) / (2 * r) := by
    unfold commandToPercent jsRound
    rw [Int.fdiv_eq_ediv _ (by omega : (0:ℤ) ≤ 2 * r)]
    have h1 : 2 * ((mn + q - mn) * 100) + r = 200 * q + r := by ring
    rw [h1]
  set R := (200 * q + r) / (2 * r) with hRdef
  have e1 := Int.ediv_add_emod (2 * (p * r) + 100) 200
  have m1nn := Int.emod_nonneg (2 * (p * r) + 100) (by norm_num : (200:ℤ) ≠ 0)
  have m1lt := Int.emod_lt_of_pos (2 * (p * r) + 100) (by norm_num : (0:ℤ) < 200)
  have e2 := Int.ediv_add_emod (200 * q + r) (2 * r)
  have m2nn := Int.emod_nonneg (200 * q + r) (by omega : (2 * r) ≠ 0)
  have m2lt := Int.emod_lt_of_pos (200 * q + r) (by omega : (0:ℤ) < 2 * r)
  set m1 := (2 * (p * r) + 100) % 200 with hm1def
  set m2 := (200 * q + r) % (2 * r) with hm2def
  rw [hq, hR]
  have hlow : ¬ (R - p ≤ -2) := by
    intro hc
    have hint : 2 * r * (R - p) ≤ 2 * r * (-2) :=
      mul_le_mul_of_nonneg_left hc (by omega : (0:ℤ) ≤ 2 * r)
    nlinarith [e1, e2, m1lt, m2lt, m1nn, m2nn, hr, hint]
  have hhigh : ¬ (2 ≤ R - p) := by
    intro hc
    have hint : 2 * r * 2 ≤ 2 * r * (R - p) :=
      mul_le_mul_of_nonneg_left hc (by omega : (0:ℤ) ≤ 2 * r)
    nlinarith [e1, e2, m1lt, m2lt, m1nn, m2nn, hr, hint]
  rw [abs_le]
  omega

/-- Witness for the amended C2 round-trip bound at `p = 50`, calibration
`(73, 107)` (range 34): both hypotheses hold and the round trip is exact. -/
theorem C2_roundtrip_witness :
    |commandToPercent 73 107 (percentToCommand 73 107 50) - 50| ≤ 1 :=
  C2_roundtrip_within_one 73 107 50 (by decide) (by decide) (by decide)

/-! ## Claim C5 — concrete status/command scenario -/

/-- The status message of the C5 scenario. -/
def msg42 : StatusMsg := ⟨some 42, some "wired", some 24, some 850⟩

/-- State after ingesting `msg42` on session 1 at time 1000 from an empty
start. -/
def c5State : ServerState := (handleStatus emptyState 1 none msg42 1000).state

/-- Claim C5: ingesting status `chipID 42, position 850, model wired,
version 24` yields a record with derived percentage 85 and `online = true`
(the spec's `currentPercent` is the source's `currentPosition`), and
`setPercent(42, 50)` under calibration `(73, 100)` computes command 87 and
sends `chipID 42, command 87` to the bound session. -/
theorem C5_scenario :
    ((c5State.shades "42").map Shade.currentPosition = some (some 85) ∧
      (c5State.shades "42").map Shade.online = some true) ∧
    percentToCommand 73 100 50 = 87 ∧
    (apiPosition c5State "42" 50 73 100).1 = ⟨"sent", [(1, ⟨42, 87⟩)]⟩ := by
  decide

/-! ## Claim C6 — firstSeen/lastSeen on first and second ingest -/

/-- Claim C6: a first status ingest for an unknown identity creates exactly
one record (all other identities untouched) whose `firstSeen` equals its
`lastSeen`; a second ingest for the same identity at a later time leaves
`firstSeen` unchanged and advances `lastSeen` to the new time. -/
theorem C6_first_second_ingest (st : ServerState) (s1 s2 : ℕ) (b1 b2 : Option String)
    (n : ℕ) (hn : n ≠ 0) (msg1 msg2 : StatusMsg) (h1 : msg1.chipID = some n)
    (h2 : msg2.chipID = some n) (t1 t2 : ℕ) (ht : t1 < t2)
    (hnew : st.shades (toString n) = none) :
    (((handleStatus st s1 b1 msg1 t1).state.shades (toString n)).map Shade.firstSeen
        = some t1 ∧
      ((handleStatus st s1 b1 msg1 t1).state.shades (toString n)).map Shade.lastSeen
        = some t1) ∧
    (∀ c, c ≠ toString n →
      (handleStatus st s1 b1 msg1 t1).state.shades c = st.shades c) ∧
    (((handleStatus (handleStatus st s1 b1 msg1 t1).state s2 b2 msg2 t2).state.shades
        (toString n)).map Shade.firstSeen = some t1 ∧
      ((handleStatus (handleStatus st s1 b1 msg1 t1).state s2 b2 msg2 t2).state.shades
        (toString n)).map Shade.lastSeen = some t2) := by
  refine ⟨⟨?_, ?_⟩, ?_, ?_, ?_⟩
  · simp [handleStatus, h1, hn, ingestStatus, hnew]
  · simp [handleStatus, h1, hn, ingestStatus, hnew]
  · intro c hc
    simp [handleStatus, h1, hn, ingestStatus, hc]
  · simp [handleStatus, h1, h2, hn, ingestStatus, hnew]
  · simp [handleStatus, h1, h2, hn, ingestStatus, hnew]

/-- Witness for C6 at identity 7, times 10 and 20, from the empty state. -/
theorem C6_witness :
    ((handleStatus emptyState 1 none ⟨some 7, none, none, some 100⟩ 10).state.shades
        "7").map Shade.firstSeen = some 10 ∧
    ((handleStatus (handleStatus emptyState 1 none ⟨some 7, none, none, some 100⟩
        10).state 2 none ⟨some 7, none, none, some 200⟩ 20).state.shades
        "7").map Shade.lastSeen = some 20 :=
  ⟨(C6_first_second_ingest emptyState 1 2 none none 7 (by decide)
      ⟨some 7, none, none, some 100⟩ ⟨some 7, none, none, some 200⟩ rfl rfl 10 20
      (by decide) rfl).1.1,
   (C6_first_second_ingest emptyState 1 2 none none 7 (by decide)
      ⟨some 7, none, none, some 100⟩ ⟨some 7, none, none, some 200⟩ rfl rfl 10 20
      (by decide) rfl).2.2.2⟩

/-! ## Claim C7 — offline dispatch performs no write -/

/-- Claim C7: dispatching a position or raw command to an identity with no
live session returns status `offline`, writes to no session, and leaves the
whole shared state (registry and record store) unchanged. -/
theorem C7_offline_no_write (st : ServerState) (cid : String) (pos cmd mn mx : ℤ)
    (h : st.connected cid = none) :
    apiPosition st cid pos mn mx = (⟨"offline", []⟩, st) ∧
    apiCommand st cid cmd = (⟨"offline", []⟩, st) := by
  constructor <;> simp [apiPosition, apiCommand, h]

/-- Witness for C7 at the empty state and identity 9. -/
theorem C7_witness :
    apiPosition emptyState "9" 50 73 100 = (⟨"offline", []⟩, emptyState) ∧
    apiCommand emptyState "9" 80 = (⟨"offline", []⟩, emptyState) :=
  C7_offline_no_write emptyState "9" 50 80 73 100 rfl

/-! ## Claim C10 — falsy chipID is silently dropped -/

/-- Claim C10: a decoded JSON message whose `chipID` is absent or `0` (falsy)
causes no state change at all: no record created or updated, no session
binding, nothing persisted, no event published, and the session stays open. -/
theorem C10_falsy_chipID_noop (st : ServerState) (sid : ℕ) (bound : Option String)
    (msg : StatusMsg) (now : ℕ) (h : msg.chipID = none ∨ msg.chipID = some 0) :
    handleStatus st sid bound msg now = ⟨st, bound, false, [], false⟩ := by
  rcases h with h | h <;> simp [handleStatus, h]

/-- Witness for C10 with `chipID = 0` at the empty state. -/
theorem C10_witness :
    handleStatus emptyState 3 none ⟨some 0, some "wired", some 24, some 850⟩ 5
      = ⟨emptyState, none, false, [], false⟩ :=
  C10_falsy_chipID_noop emptyState 3 none ⟨some 0, some "wired", some 24, some 850⟩ 5
    (Or.inr rfl)

/-! ## Claim C1 — stale teardown -/

/-- A record for identity 42, online. -/
def shadeA : Shade := ⟨"42", "LinkShade 42", 10, 20, true, some "wired", some 24,
  some 850, some 85⟩

/-- State in which identity 42 is bound to the newer session 2 while the
older session (about to close) still has `shadeChipID = "42"`. -/
def stStale : ServerState :=
  ⟨fun c => if c = "42" then some shadeA else none,
   fun c => if c = "42" then some 2 else none⟩

/-- Claim C1 is violated by the source: the close handler of a superseded
session deletes the live-session binding and clears `online` even though the
map maps identity 42 to the *newer* session 2, because
`connectedShades.delete(shadeChipID)` runs without checking that the entry
still refers to the closing socket. This theorem evaluates the teardown at
that state: the newer session's binding is removed and `online` is set false. -/
theorem C1_stale_teardown_clobbers_newer :
    stStale.connected "42" = some 2 ∧
    (handleClose stStale (some "42")).state.connected "42" = none ∧
    ((handleClose stStale (some "42")).state.shades "42").map Shade.online
      = some false := by
  decide

/-! ## Claim C8 — online iff live session -/

/-- Status ingest preserves the online/live-session agreement. -/
theorem onlineInv_ingest (st : ServerState) (sid n : ℕ) (msg : StatusMsg) (now : ℕ)
    (ih : onlineInv st) : onlineInv (ingestStatus st sid n msg now).state := by
  intro cid sh hsh
  by_cases hc : cid = toString n
  · subst hc
    simp [ingestStatus] at hsh ⊢
    rw [← hsh]
  · simp [ingestStatus, hc] at hsh ⊢
    simpa using ih cid sh hsh

/-- Teardown preserves the online/live-session agreement (stale or not, both
the binding and the flag end up offline together). -/
theorem onlineInv_close (st : ServerState) (bound : Option String)
    (ih : onlineInv st) : onlineInv (handleClose st bound).state := by
  cases bound with
  | none => exact ih
  | some cid0 =>
    intro cid sh hsh
    by_cases hc : cid = cid0
    · subst hc
      cases hdb : st.shades cid with
      | none =>
        simp only [handleClose, hdb] at hsh
        simp [hdb] at hsh
      | some sh0 =>
        simp [handleClose, hdb] at hsh ⊢
        rw [← hsh]
    · cases hdb : st.shades cid0 with
      | none =>
        simp [handleClose, hdb, hc] at hsh ⊢
        simpa using ih cid sh hsh
      | some sh0 =>
        simp [handleClose, hdb, hc] at hsh ⊢
        simpa using ih cid sh hsh

/-- The command endpoints do not change the shared state. -/
theorem apiPosition_state (st : ServerState) (cid : String) (p mn mx : ℤ) :
    (apiPosition st cid p mn mx).2 = st := by
  cases h : st.connected cid <;> simp [apiPosition, h]

/-- The raw-command endpoint does not change the shared state. -/
theorem apiCommand_state (st : ServerState) (cid : String) (c : ℤ) :
    (apiCommand st cid c).2 = st := by
  cases h : st.connected cid <;> simp [apiCommand, h]

/-- A persisted store holding identity 42 with `online = true`. -/
def dbStale : String → Option Shade := fun c => if c = "42" then some shadeA else none

/-- Claim C8 is false as stated ("including the state after loading a
persisted record store"): `loadData()` keeps whatever `online` flags the
snapshot holds while `connectedShades` starts empty, so a record saved with
`online = true` (e.g. after a crash with a live session) disagrees with the
empty live-session map. -/
theorem C8_counterexample : ¬ onlineInv (loadState dbStale) := by
  intro h
  have h42 := h "42" shadeA (by decide)
  simp [shadeA, loadState, dbStale] at h42

/-- Claim C8, amended: the agreement `online = true ↔ live session present`
holds in every state reachable by the in-process handlers (status ingest,
teardown, command dispatch) from an empty startup; it does not survive
loading a persisted store whose records carry `online = true`. -/
theorem C8_online_iff_live (st : ServerState) (h : Reachable st) : onlineInv st := by
  induction h with
  | init => intro cid sh hsh; simp [emptyState] at hsh
  | status st sid bound msg now _ ih =>
    cases hmsg : msg.chipID with
    | none => simpa [handleStatus, hmsg] using ih
    | some n =>
      by_cases hn : n = 0
      · simpa [handleStatus, hmsg, hn] using ih
      · simpa [handleStatus, hmsg, hn] using onlineInv_ingest st sid n msg now ih
  | close st bound _ ih => exact onlineInv_close st bound ih
  | position st cid p mn mx _ ih => simpa [apiPosition_state] using ih
  | command st cid c _ ih => simpa [apiCommand_state] using ih

/-- Witness for the amended C8 at a concrete reachable state: ingest of
identity 7 on session 1 from the empty start. -/
theorem C8_witness :
    onlineInv (handleStatus emptyState 1 none ⟨some 7, none, none, some 100⟩ 5).state :=
  C8_online_iff_live _
    (Reachable.status emptyState 1 none ⟨some 7, none, none, some 100⟩ 5 Reachable.init)

/-! ## Claim C9 — upgrade handshake -/

/-- Claim C9: an upgrade request without the handshake key is rejected by
destroying the socket with no response bytes written; a request carrying a
key receives a response containing the accept token
`base64(SHA-1(key ++ "258EAFA5-E914-47DA-95CA-C5AB0DC85B11"))`. -/
theorem C9_handshake (proto : Option String) (k : String) (hk : k ≠ "") :
    (handleUpgrade none proto).destroyed = true ∧
    (handleUpgrade none proto).responseLines = none ∧
    (handleUpgrade (some k) proto).destroyed = false ∧
    ("Sec-WebSocket-Accept: " ++ base64 (sha1 (strBytes (k ++ WS_GUID))))
      ∈ ((handleUpgrade (some k) proto).responseLines.getD []) := by
  refine ⟨rfl, rfl, ?_, ?_⟩
  · simp [handleUpgrade, hk]
  · simp [handleUpgrade, hk, wsAccept]

/-- Witness for C9 at the RFC 6455 sample key. -/
theorem C9_witness :
    ("Sec-WebSocket-Accept: " ++
        base64 (sha1 (strBytes ("dGhlIHNhbXBsZSBub25jZQ==" ++ WS_GUID))))
      ∈ ((handleUpgrade (some "dGhlIHNhbXBsZSBub25jZQ==") none).responseLines.getD []) :=
  (C9_handshake none "dGhlIHNhbXBsZSBub25jZQ==" (by decide)).2.2.2

/-! ## Claims C3 and C4 — frame decode -/

/-- Decoding the tail of a masked frame whose mask key and payload are fully
buffered succeeds, unmasks the payload and consumes `off + 4 + payload`. -/
theorem finishParse_masked (pre key wp : List ℕ) (op off : ℕ) (hpre : pre.length = off)
    (hkey : key.length = 4) :
    finishParse (pre ++ (key ++ wp)) op 1 wp.length off
      = some ⟨op, applyMask key wp, off + 4 + wp.length⟩ := by
  have hlen : (pre ++ (key ++ wp)).length = off + (4 + wp.length) := by
    simp [hpre, hkey]
  have hdrop1 : (pre ++ (key ++ wp)).drop off = key ++ wp := List.drop_left' hpre
  have hdrop2 : (pre ++ (key ++ wp)).drop (off + 4) = wp := by
    rw [← List.append_assoc]
    exact List.drop_left' (by simp [hpre, hkey])
  unfold finishParse
  rw [if_pos rfl, if_neg (by omega), if_neg (by omega), hdrop1, hdrop2,
    List.take_left' hkey, List.take_length]

/-- Decoding the tail of an unmasked frame whose payload is fully buffered
succeeds and consumes `off + payload`. -/
theorem finishParse_unmasked (pre wp : List ℕ) (op off : ℕ) (hpre : pre.length = off) :
    finishParse (pre ++ wp) op 0 wp.length off = some ⟨op, wp, off + wp.length⟩ := by
  have hlen : (pre ++ wp).length = off + wp.length := by simp [hpre]
  unfold finishParse
  rw [if_neg (by omega), if_neg (by omega), List.drop_left' hpre, List.take_length]

/-- Evaluation of the decode front end on a buffer of at least two bytes. -/
theorem parse_cons_cons (b0 b1 : ℕ) (rest : List ℕ) :
    parseWebSocketFrame (b0 :: b1 :: rest) =
      if b1 % 128 = 126 then
        if rest.length < 2 then none
        else finishParse (b0 :: b1 :: rest) (b0 % 16) (b1 / 128 % 2)
          (readUInt16BE (b0 :: b1 :: rest) 2) 4
      else if b1 % 128 = 127 then
        if rest.length < 8 then none
        else finishParse (b0 :: b1 :: rest) (b0 % 16) (b1 / 128 % 2)
          (readUInt64BE (b0 :: b1 :: rest) 2) 10
      else finishParse (b0 :: b1 :: rest) (b0 % 16) (b1 / 128 % 2) (b1 % 128) 2 := by
  unfold parseWebSocketFrame
  simp only [List.length_cons, List.getD_cons_zero, List.getD_cons_succ]
  split_ifs <;> first | rfl | omega

/-- Claim C3: for every buffer holding one complete well-formed frame with
payload length `L`, under each of the three length encodings and with or
without masking, decode consumes exactly `header + (4 mask bytes when masked)
+ L` bytes, and its payload is the on-wire payload with the 4-byte mask key
XOR-applied cyclically exactly when the mask bit is set. -/
theorem C3_decode_wellformed (b0 : ℕ) (enc : LenEnc) (masked : Bool) (key wire : List ℕ)
    (hlen : lenOK enc wire.length) (hkey : key.length = 4) :
    parseWebSocketFrame (mkFrame b0 enc masked key wire)
      = some ⟨b0 % 16, if masked then applyMask key wire else wire,
              headerSize enc + (if masked then 4 else 0) + wire.length⟩ := by
  cases enc with
  | direct =>
    have hL : wire.length ≤ 125 := hlen
    cases masked with
    | true =>
      have hbuf : mkFrame b0 .direct true key wire
          = b0 :: (128 + wire.length) :: (key ++ wire) := by
        simp [mkFrame, lenField, extBytes]
      rw [hbuf, parse_cons_cons, if_neg (by omega), if_neg (by omega),
        show (128 + wire.length) / 128 % 2 = 1 by omega,
        show (128 + wire.length) % 128 = wire.length by omega]
      simpa using finishParse_masked [b0, 128 + wire.length] key wire (b0 % 16) 2 rfl hkey
    | false =>
      have hbuf : mkFrame b0 .direct false key wire = b0 :: wire.length :: wire := by
        simp [mkFrame, lenField, extBytes]
      rw [hbuf, parse_cons_cons, if_neg (by omega), if_neg (by omega),
        show wire.length / 128 % 2 = 0 by omega,
        show wire.length % 128 = wire.length by omega]
      simpa using finishParse_unmasked [b0, wire.length] wire (b0 % 16) 2 rfl
  | ext16 =>
    have hL : wire.length < 65536 := hlen
    cases masked with
    | true =>
      have hbuf : mkFrame b0 .ext16 true key wire
          = b0 :: 254 :: (wire.length / 256 % 256) :: (wire.length % 256) :: (key ++ wire) := by
        simp [mkFrame, lenField, extBytes, be16]
      rw [hbuf, parse_cons_cons, if_pos (by norm_num)]
      rw [if_neg (by simp [hkey]; try omega)]
      rw [show (254 : ℕ) / 128 % 2 = 1 by norm_num]
      have hread : readUInt16BE (b0 :: 254 :: (wire.length / 256 % 256) ::
          (wire.length % 256) :: (key ++ wire)) 2 = wire.length := by
        simp [readUInt16BE]
        try omega
      rw [hread]
      simpa using finishParse_masked
        [b0, 254, wire.length / 256 % 256, wire.length % 256] key wire (b0 % 16) 4 rfl hkey
    | false =>
      have hbuf : mkFrame b0 .ext16 false key wire
          = b0 :: 126 :: (wire.length / 256 % 256) :: (wire.length % 256) :: wire := by
        simp [mkFrame, lenField, extBytes, be16]
      rw [hbuf, parse_cons_cons, if_pos (by norm_num)]
      rw [if_neg (by simp; try omega)]
      rw [show (126 : ℕ) / 128 % 2 = 0 by norm_num]
      have hread : readUInt16BE (b0 :: 126 :: (wire.length / 256 % 256) ::
          (wire.length % 256) :: wire) 2 = wire.length := by
        simp [readUInt16BE]
        try omega
      rw [hread]
      simpa using finishParse_unmasked
        [b0, 126, wire.length / 256 % 256, wire.length % 256] wire (b0 % 16) 4 rfl
  | ext64 =>
    have hL : wire.length < 18446744073709551616 := hlen
    cases masked with
    | true =>
      have hbuf : mkFrame b0 .ext64 true key wire
          = b0 :: 255 :: (wire.length / 72057594037927936 % 256) ::
            (wire.length / 281474976710656 % 256) :: (wire.length / 1099511627776 % 256) ::
            (wire.length / 4294967296 % 256) :: (wire.length / 16777216 % 256) ::
            (wire.length / 65536 % 256) :: (wire.length / 256 % 256) ::
            (wire.length % 256) :: (key ++ wire) := by
        simp [mkFrame, lenField, extBytes, be64]
      rw [hbuf, parse_cons_cons, if_neg (by norm_num), if_pos (by norm_num)]
      rw [if_neg (by simp [hkey]; try omega)]
      rw [show (255 : ℕ) / 128 % 2 = 1 by norm_num]
      have hread : readUInt64BE (b0 :: 255 :: (wire.length / 72057594037927936 % 256) ::
          (wire.length / 281474976710656 % 256) :: (wire.length / 1099511627776 % 256) ::
          (wire.length / 4294967296 % 256) :: (wire.length / 16777216 % 256) ::
          (wire.length / 65536 % 256) :: (wire.length / 256 % 256) ::
          (wire.length % 256) :: (key ++ wire)) 2 = wire.length := by
        simp [readUInt64BE]
        try omega
      rw [hread]
      simpa using finishParse_masked
        [b0, 255, wire.length / 72057594037927936 % 256, wire.length / 281474976710656 % 256,
         wire.length / 1099511627776 % 256, wire.length / 4294967296 % 256,
         wire.length / 16777216 % 256, wire.length / 65536 % 256, wire.length / 256 % 256,
         wire.length % 256] key wire (b0 % 16) 10 rfl hkey
    | false =>
      have hbuf : mkFrame b0 .ext64 false key wire
          = b0 :: 127 :: (wire.length / 72057594037927936 % 256) ::
            (wire.length / 281474976710656 % 256) :: (wire.length / 1099511627776 % 256) ::
            (wire.length / 4294967296 % 256) :: (wire.length / 16777216 % 256) ::
            (wire.length / 65536 % 256) :: (wire.length / 256 % 256) ::
            (wire.length % 256) :: wire := by
        simp [mkFrame, lenField, extBytes, be64]
      rw [hbuf, parse_cons_cons, if_neg (by norm_num), if_pos (by norm_num)]
      rw [if_neg (by simp; try omega)]
      rw [show (127 : ℕ) / 128 % 2 = 0 by norm_num]
      have hread : readUInt64BE (b0 :: 127 :: (wire.length / 72057594037927936 % 256) ::
          (wire.length / 281474976710656 % 256) :: (wire.length / 1099511627776 % 256) ::
          (wire.length / 4294967296 % 256) :: (wire.length / 16777216 % 256) ::
          (wire.length / 65536 % 256) :: (wire.length / 256 % 256) ::
          (wire.length % 256) :: wire) 2 = wire.length := by
        simp [readUInt64BE]
        try omega
      rw [hread]
      simpa using finishParse_unmasked
        [b0, 127, wire.length / 72057594037927936 % 256, wire.length / 281474976710656 % 256,
         wire.length / 1099511627776 % 256, wire.length / 4294967296 % 256,
         wire.length / 16777216 % 256, wire.length / 65536 % 256, wire.length / 256 % 256,
         wire.length % 256] wire (b0 % 16) 10 rfl

/-- Witness for C3: a masked 16-bit-length frame with opcode 1, mask key
`[1,2,3,4]` and two payload bytes. -/
theorem C3_witness :
    parseWebSocketFrame (mkFrame 129 LenEnc.ext16 true [1, 2, 3, 4] [10, 20])
      = some ⟨129 % 16, if true then applyMask [1, 2, 3, 4] [10, 20] else [10, 20],
              headerSize LenEnc.ext16 + (if true then 4 else 0) +
                ([10, 20] : List ℕ).length⟩ :=
  C3_decode_wellformed 129 LenEnc.ext16 true [1, 2, 3, 4] [10, 20]
    (show ([10, 20] : List ℕ).length < 65536 by decide) rfl

/-- Claim C4: decode reports "insufficient data" (`none`) exactly when the
buffer is shorter than 2 bytes or shorter than the byte count the declared
frame requires (header, extended length field, mask key, payload). Returning
`none` consumes nothing, and decode is a total function — re-invoking it on
the grown buffer never errors. -/
theorem C4_insufficient_data (b : List ℕ) :
    parseWebSocketFrame b = none ↔ b.length < 2 ∨ b.length < requiredLen b := by
  simp only [parseWebSocketFrame, finishParse, requiredLen, headerLen, declaredLen,
    lenCode, maskBitOf]
  split_ifs <;> simp_all <;> omega

/-- Witness for C4: a one-byte buffer reports insufficient data. -/
theorem C4_witness : parseWebSocketFrame [129] = none :=
  (C4_insufficient_data [129]).mpr (Or.inl (by decide))
